import Mathlib

/-!
Shallow embedding of the washing-machine control program (src/main.cpp).

Hardware reads are modelled as inputs supplied to each poll; hardware writes
and log lines are modelled as an `Event` trace.  Machine floats are modelled
as rationals, C `int` as `ℤ` (counters that stay non-negative as `ℕ`).
-/

namespace WashingMachine

/-- Possible system states (enum SystemState, main.cpp lines 6-10). -/
inductive SystemState where
  | OFF
  | IDLE
  | RUNNING
deriving DecidableEq, Repr

/-- Constants from main.cpp lines 13-27. -/
def FREQUENCY : ℚ := 100
def FSR_THRESHOLD : ℚ := 1/10
def LDR_THRESHOLD : ℚ := 15
def TEMP_THRESHOLD : ℚ := 5
def DOOR_OPEN_THRESHOLD : ℚ := 40
def TEMP_SENSOR_CALIBRATION : ℚ := 1/2
def DEBOUNCE_COUNT : ℕ := 3
def NUM_SAMPLES : ℕ := 5
def LOAD_LIGHT : ℚ := 2/10
def LOAD_MEDIUM : ℚ := 4/10
def LOAD_HEAVY : ℚ := 6/10
def LOAD_OVERLOAD : ℚ := 7/10

/-- 7-segment digit patterns (main.cpp line 49). -/
def hexDis : List ℕ :=
  [0x3F, 0x06, 0x5B, 0x4F, 0x66, 0x6D, 0x7D, 0x07, 0x7F, 0x6F, 0x77, 0x7C, 0x39, 0x5E, 0x79, 0x71]

/-- C cast `(int)x`: truncation toward zero. -/
def truncf (x : ℚ) : ℤ := if x < 0 then ⌈x⌉ else ⌊x⌋

/-- C `roundf`: rounding half away from zero (for non-negative arguments this
is Mathlib `round`). -/
def roundf (x : ℚ) : ℤ := if x < 0 then -round (-x) else round x

/-- Global mutable state of the program (main.cpp lines 51-70). -/
structure MachState where
  systemState : SystemState
  lastPowerState : ℕ
  lastStartState : ℕ
  doorOpenWarningActive : Bool
  overloadWarningActive : Bool
  doorOpenCount : ℕ
  doorClosedCount : ℕ
  prevFsr : ℚ
  prevLdr : ℚ
  prevTempActual : ℚ
  prevRpm : ℤ
  prevTemp : ℤ
  prevTime : ℤ
deriving DecidableEq, Repr

/-- Initial global values (main.cpp lines 52-70). -/
def mainInit : MachState :=
  { systemState := SystemState.OFF
    lastPowerState := 0
    lastStartState := 0
    doorOpenWarningActive := false
    overloadWarningActive := false
    doorOpenCount := 0
    doorClosedCount := 0
    prevFsr := -1
    prevLdr := -1
    prevTempActual := -1
    prevRpm := -1
    prevTemp := -1
    prevTime := -1 }

/-- Observable effects: actuator writes and log lines (printf) emitted by the
control code.  Log lines are identified by constructor, with the printed
numbers as arguments. -/
inductive Event where
  | beep (freq : ℚ) (durationMs : ℤ)
  | rgb (r g b : ℚ)
  | redLed (lit : Bool)
  | display (pat : ℕ)
  | pwmInit
  | readPots
  | logSystemOn
  | logSystemOff
  | logSettings (rpm temp time : ℤ)
  | logSensors (load : ℚ) (temp : ℤ) (doorOpen : Bool)
  | logOverloadWarning
  | logLoadAcceptable
  | logCycleCountdown (remaining : ℕ)
  | logCycleComplete
  | logStartingCycle (rpm temp time : ℤ)
  | logCannotStartDoor
  | logCannotStartOverload
  | logCycleAlreadyInProgress
  | logCycleEnded
deriving DecidableEq, Repr

/-- Load tiers named by the comments of setLoadLevelColor (main.cpp 103-115)
and the spec's LoadTier enum. -/
inductive LoadTier where
  | Light
  | Normal
  | Medium
  | Heavy
  | Overload
deriving DecidableEq, Repr

/-- The tier selected by the branch structure of setLoadLevelColor
(main.cpp lines 103-115). -/
def classify (load : ℚ) : LoadTier :=
  if load < LOAD_LIGHT then LoadTier.Light
  else if load < LOAD_MEDIUM then LoadTier.Normal
  else if load < LOAD_HEAVY then LoadTier.Medium
  else if load < LOAD_OVERLOAD then LoadTier.Heavy
  else LoadTier.Overload

/-- The fixed colour of each tier (the setRGB argument of each branch). -/
def tierColor : LoadTier → ℚ × ℚ × ℚ
  | LoadTier.Light => (0, 1, 0)
  | LoadTier.Normal => (1/2, 1, 0)
  | LoadTier.Medium => (1, 1, 0)
  | LoadTier.Heavy => (1, 1/2, 0)
  | LoadTier.Overload => (1, 0, 0)

/-- setLoadLevelColor (main.cpp lines 103-115): RGB triple written for a load. -/
def setLoadLevelColorRGB (load : ℚ) : ℚ × ℚ × ℚ :=
  if load < LOAD_LIGHT then (0, 1, 0)
  else if load < LOAD_MEDIUM then (1/2, 1, 0)
  else if load < LOAD_HEAVY then (1, 1, 0)
  else if load < LOAD_OVERLOAD then (1, 1/2, 0)
  else (1, 0, 0)

/-- readAveragedSensor (main.cpp lines 118-125): arithmetic mean of the
NUM_SAMPLES scaled samples read during the call; the samples are an input. -/
def readAveragedSensor (samples : List ℚ) (scale : ℚ) : ℚ :=
  (samples.map (fun x => x * scale)).sum / (NUM_SAMPLES : ℚ)

/-- hasSignificantChange (main.cpp lines 147-149). -/
def hasSignificantChange (newVal prevVal threshold : ℚ) : Bool :=
  decide (prevVal < 0) || decide (|newVal - prevVal| ≥ threshold)

/-- isDoorOpen (main.cpp lines 152-154), as a function of the raw LDR read. -/
def isDoorOpen (ldr : ℚ) : Bool := decide (ldr > DOOR_OPEN_THRESHOLD)

/-- isOverloaded (main.cpp lines 157-159). -/
def isOverloaded (load : ℚ) : Bool := decide (load > LOAD_OVERLOAD)

/-- updateDisplay (main.cpp lines 162-168): the pattern written to the
7-segment bus for a value, given the current system state. -/
def updateDisplayPattern (st : SystemState) (value : ℤ) : ℕ :=
  if st = SystemState.OFF then 0x00 else hexDis.getD (value % 10).toNat 0

/-- Time-pot scaling in readAndProcessSensors (main.cpp lines 205-208):
step clamped to 9, then times 10. -/
def timeMinutesIdle (potVal : ℚ) : ℤ :=
  let time0 := roundf (potVal * 8) + 1
  let time1 := if time0 > 9 then 9 else time0
  time1 * 10

/-- Time-pot scaling in handleButtons (main.cpp lines 326-327):
times 10 first, then clamped to 90. -/
def timeMinutesStart (potVal : ℚ) : ℤ :=
  let time := (roundf (potVal * 8) + 1) * 10
  if time > 90 then 90 else time

/-- Inputs consumed by one call of readAndProcessSensors: the three pot
reads, the three 5-sample averaging windows, and the two direct
isDoorOpen() LDR reads (log line 238 and debounce line 248). -/
structure SensorInputs where
  potRPM : ℚ
  potTemp : ℚ
  potTime : ℚ
  fsrSamples : List ℚ
  ldrSamples : List ℚ
  tempSamples : List ℚ
  ldrRawLog : ℚ
  ldrRawDebounce : ℚ
deriving DecidableEq, Repr

/-- Inputs consumed by one call of handleButtons: the two digital button
levels (0 = pressed) and the pot values read if a cycle starts. -/
structure BtnInputs where
  powerLevel : ℕ
  startLevel : ℕ
  potRPM : ℚ
  potTemp : ℚ
  potTime : ℚ
deriving DecidableEq, Repr

/-- powerOn (main.cpp lines 171-180). -/
def powerOn (s : MachState) : MachState × List Event :=
  ({s with systemState := SystemState.IDLE},
   [Event.beep 600 100, Event.logSystemOn, Event.pwmInit])

/-- powerOff (main.cpp lines 183-196): state goes OFF, outputs are zeroed,
only the two warning flags are reset. -/
def powerOff (s : MachState) : MachState × List Event :=
  ({s with systemState := SystemState.OFF,
           doorOpenWarningActive := false,
           overloadWarningActive := false},
   [Event.beep 600 100, Event.logSystemOff, Event.rgb 0 0 0, Event.redLed false,
    Event.display (updateDisplayPattern SystemState.OFF 0)])

/-- Countdown loop body of runCycleCountdown (main.cpp lines 131-134):
for i = steps down to 1, update the display with i and log. -/
def countdownLoop (st : SystemState) : ℕ → List Event
  | 0 => []
  | Nat.succ i =>
      Event.display (updateDisplayPattern st ((i + 1 : ℕ) : ℤ)) ::
      Event.logCycleCountdown (i + 1) :: countdownLoop st i

/-- runCycleCountdown (main.cpp lines 128-144).  `steps = minutes / 10`
(C int division; a non-positive count skips the loop, matching `toNat`). -/
def runCycleCountdown (st : SystemState) (minutes : ℤ) : List Event :=
  countdownLoop st (minutes.toNat / 10) ++
  [Event.display (updateDisplayPattern st 0), Event.logCycleComplete,
   Event.beep 1000 200, Event.beep 1000 200, Event.beep 1000 200]

/-- Pot significant-change block of readAndProcessSensors
(main.cpp lines 222-230). -/
def potsSection (rpm temp time : ℤ) (s : MachState) : MachState × List Event :=
  if hasSignificantChange (rpm : ℚ) (s.prevRpm : ℚ) 50 ||
     hasSignificantChange (temp : ℚ) (s.prevTemp : ℚ) 5 ||
     hasSignificantChange (time : ℚ) (s.prevTime : ℚ) 5 then
    ({s with prevRpm := rpm, prevTemp := temp, prevTime := time},
     [Event.logSettings rpm temp time])
  else (s, [])

/-- Sensor significant-change block of readAndProcessSensors
(main.cpp lines 233-245). -/
def sensorLogSection (fsr tempActual ldr ldrRawLog : ℚ) (s : MachState) :
    MachState × List Event :=
  if hasSignificantChange fsr s.prevFsr FSR_THRESHOLD ||
     hasSignificantChange tempActual s.prevTempActual TEMP_THRESHOLD ||
     hasSignificantChange ldr s.prevLdr LDR_THRESHOLD then
    ({s with prevFsr := fsr, prevTempActual := tempActual, prevLdr := ldr},
     [Event.logSensors fsr (roundf tempActual) (isDoorOpen ldrRawLog)])
  else (s, [])

/-- Door debounce computation (main.cpp lines 250-261): bump one counter,
reset the other, then evaluate the hysteresis condition.  Returns
(doorOpenCount, doorClosedCount, doorCurrentlyOpen). -/
def doorDebounceCore (raw : Bool) (oc cc : ℕ) (flag : Bool) : ℕ × ℕ × Bool :=
  let p : ℕ × ℕ := if raw then (oc + 1, 0) else (0, cc + 1)
  let cur : Bool := if flag then decide (p.2 < DEBOUNCE_COUNT)
                    else decide (p.1 ≥ DEBOUNCE_COUNT)
  (p.1, p.2, cur)

/-- Door state block of readAndProcessSensors (main.cpp lines 247-268):
counters update, conditional flag flip, beep on a rising edge while IDLE. -/
def doorSection (raw : Bool) (s : MachState) : MachState × List Event :=
  let r := doorDebounceCore raw s.doorOpenCount s.doorClosedCount s.doorOpenWarningActive
  let s1 := {s with doorOpenCount := r.1, doorClosedCount := r.2.1}
  if r.2.2 ≠ s1.doorOpenWarningActive then
    ({s1 with doorOpenWarningActive := r.2.2},
     if r.2.2 = true ∧ s1.systemState = SystemState.IDLE then [Event.beep 700 200] else [])
  else (s1, [])

/-- Overload warning block of readAndProcessSensors (main.cpp lines 279-288). -/
def overloadSection (fsr : ℚ) (s : MachState) : MachState × List Event :=
  let cur := isOverloaded fsr
  if cur ≠ s.overloadWarningActive then
    ({s with overloadWarningActive := cur},
     if cur then [Event.logOverloadWarning, Event.beep 500 100]
     else [Event.logLoadAcceptable])
  else (s, [])

/-- readAndProcessSensors (main.cpp lines 199-289). -/
def readAndProcessSensors (s : MachState) (inp : SensorInputs) : MachState × List Event :=
  let rpm : ℤ := truncf (inp.potRPM * 7 + 2) * 100
  let temp : ℤ := truncf (inp.potTemp * 4 + 2) * 10
  let time : ℤ := timeMinutesIdle inp.potTime
  let fsr : ℚ := readAveragedSensor inp.fsrSamples 1
  let ldr : ℚ := readAveragedSensor inp.ldrSamples 100
  let tempActual : ℚ := readAveragedSensor inp.tempSamples 330 * TEMP_SENSOR_CALIBRATION
  let evDisp : List Event :=
    if s.systemState = SystemState.IDLE then
      [Event.display (updateDisplayPattern s.systemState (time / 10))]
    else []
  let r1 := potsSection rpm temp time s
  let r2 := sensorLogSection fsr tempActual ldr inp.ldrRawLog r1.1
  let r3 := doorSection (isDoorOpen inp.ldrRawDebounce) r2.1
  let evLed : List Event :=
    if r3.1.systemState = SystemState.IDLE then [Event.redLed r3.1.doorOpenWarningActive]
    else []
  let evRgb : List Event :=
    [Event.rgb (setLoadLevelColorRGB fsr).1 (setLoadLevelColorRGB fsr).2.1
      (setLoadLevelColorRGB fsr).2.2]
  let r4 := overloadSection fsr r3.1
  (r4.1, evDisp ++ r1.2 ++ r2.2 ++ r3.2 ++ evLed ++ evRgb ++ r4.2)

/-- Power-button block of handleButtons (main.cpp lines 294-305). -/
def powerButtonStep (level : ℕ) (s : MachState) : MachState × List Event :=
  let r : MachState × List Event :=
    if level = 0 ∧ s.lastPowerState = 1 then
      if s.systemState = SystemState.OFF then
        ({(powerOn s).1 with lastPowerState := 0}, (powerOn s).2)
      else
        ({(powerOff s).1 with lastPowerState := 0}, (powerOff s).2)
    else (s, [])
  if level = 1 then ({r.1 with lastPowerState := 1}, r.2) else r

/-- Body of the start-button press handler (main.cpp lines 312-343), entered
after the edge fired and lastStartState was zeroed.  In the success branch
systemState is set to RUNNING, the blocking countdown runs, and systemState
is set back to IDLE before returning, so the returned state is IDLE. -/
def startPressAction (pRPM pTemp pTime : ℚ) (s : MachState) : MachState × List Event :=
  if s.systemState = SystemState.IDLE then
    if s.doorOpenWarningActive then
      (s, [Event.logCannotStartDoor, Event.beep 300 500])
    else if s.overloadWarningActive then
      (s, [Event.logCannotStartOverload, Event.beep 300 500])
    else
      let rpm : ℤ := truncf (pRPM * 7 + 2) * 100
      let temp : ℤ := truncf (pTemp * 4 + 2) * 10
      let time : ℤ := timeMinutesStart pTime
      ({s with systemState := SystemState.IDLE},
       Event.readPots :: Event.logStartingCycle rpm temp time :: Event.beep 700 100 ::
       (runCycleCountdown SystemState.RUNNING time ++ [Event.logCycleEnded]))
  else if s.systemState = SystemState.RUNNING then
    (s, [Event.logCycleAlreadyInProgress, Event.beep 500 100])
  else (s, [])

/-- Start-button block of handleButtons (main.cpp lines 308-348). -/
def startButtonStep (level : ℕ) (pRPM pTemp pTime : ℚ) (s : MachState) :
    MachState × List Event :=
  let r : MachState × List Event :=
    if level = 0 ∧ s.lastStartState = 1 ∧ s.systemState ≠ SystemState.OFF then
      startPressAction pRPM pTemp pTime {s with lastStartState := 0}
    else (s, [])
  if level = 1 then ({r.1 with lastStartState := 1}, r.2) else r

/-- handleButtons (main.cpp lines 292-349). -/
def handleButtons (s : MachState) (i : BtnInputs) : MachState × List Event :=
  let r1 := powerButtonStep i.powerLevel s
  let r2 := startButtonStep i.startLevel i.potRPM i.potTemp i.potTime r1.1
  (r2.1, r1.2 ++ r2.2)

/-- One iteration of the main control loop (main.cpp lines 360-377):
buttons always, sensors only when not OFF. -/
def mainStep (s : MachState) (i : BtnInputs) (inp : SensorInputs) :
    MachState × List Event :=
  let r1 := handleButtons s i
  match r1.1.systemState with
  | SystemState.OFF => r1
  | _ =>
      let r2 := readAndProcessSensors r1.1 inp
      (r2.1, r1.2 ++ r2.2)

/-- States the control loop can be in when it reaches the top of the loop
(entry of handleButtons), starting from the initial globals. -/
inductive Reachable : MachState → Prop where
  | init : Reachable mainInit
  | step (s : MachState) (i : BtnInputs) (inp : SensorInputs) :
      Reachable s → Reachable (mainStep s i inp).1

/-- Iterated sensor polls (readAndProcessSensors called once per poll). -/
def runPolls (s : MachState) (inps : List SensorInputs) : MachState :=
  inps.foldl (fun st inp => (readAndProcessSensors st inp).1) s

/-- The generic release-to-press edge detector, as instantiated for the
power button (main.cpp lines 294-305) and for the start button while the
system is on (lines 308-348): fire when level is 0 and lastLevel is 1,
zero lastLevel on fire, set lastLevel when level is 1. -/
def buttonEdge (level last : ℕ) : Bool × ℕ :=
  let fired : Bool := decide (level = 0 ∧ last = 1)
  let last1 : ℕ := if fired then 0 else last
  let last2 : ℕ := if level = 1 then 1 else last1
  (fired, last2)

/-- One detector poll folded with a fire counter. -/
def buttonPoll (acc : ℕ × ℕ) (lv : ℕ) : ℕ × ℕ :=
  (acc.1 + (if (buttonEdge lv acc.2).1 then 1 else 0), (buttonEdge lv acc.2).2)

/-- Run the edge detector over a level stream, counting fired events. -/
def buttonRun (last : ℕ) (levels : List ℕ) : ℕ × ℕ :=
  levels.foldl buttonPoll (0, last)

/-- A neutral sensor-input fixture: all pots and samples zero. -/
def zeroSensors : SensorInputs :=
  { potRPM := 0, potTemp := 0, potTime := 0,
    fsrSamples := [0, 0, 0, 0, 0], ldrSamples := [0, 0, 0, 0, 0],
    tempSamples := [0, 0, 0, 0, 0], ldrRawLog := 0, ldrRawDebounce := 0 }

/-- A neutral button-input fixture: both buttons released, pots zero. -/
def idleButtons : BtnInputs :=
  { powerLevel := 1, startLevel := 1, potRPM := 0, potTemp := 0, potTime := 0 }

/-! Field-preservation lemmas for the blocks of readAndProcessSensors. -/

@[simp] lemma potsSection_systemState (a b c : ℤ) (s : MachState) :
    (potsSection a b c s).1.systemState = s.systemState := by
  unfold potsSection; split <;> rfl

@[simp] lemma potsSection_doorOpenCount (a b c : ℤ) (s : MachState) :
    (potsSection a b c s).1.doorOpenCount = s.doorOpenCount := by
  unfold potsSection; split <;> rfl

@[simp] lemma potsSection_doorClosedCount (a b c : ℤ) (s : MachState) :
    (potsSection a b c s).1.doorClosedCount = s.doorClosedCount := by
  unfold potsSection; split <;> rfl

@[simp] lemma potsSection_doorFlag (a b c : ℤ) (s : MachState) :
    (potsSection a b c s).1.doorOpenWarningActive = s.doorOpenWarningActive := by
  unfold potsSection; split <;> rfl

@[simp] lemma potsSection_overloadFlag (a b c : ℤ) (s : MachState) :
    (potsSection a b c s).1.overloadWarningActive = s.overloadWarningActive := by
  unfold potsSection; split <;> rfl

@[simp] lemma potsSection_lastPower (a b c : ℤ) (s : MachState) :
    (potsSection a b c s).1.lastPowerState = s.lastPowerState := by
  unfold potsSection; split <;> rfl

@[simp] lemma potsSection_lastStart (a b c : ℤ) (s : MachState) :
    (potsSection a b c s).1.lastStartState = s.lastStartState := by
  unfold potsSection; split <;> rfl

@[simp] lemma sensorLogSection_systemState (a b c d : ℚ) (s : MachState) :
    (sensorLogSection a b c d s).1.systemState = s.systemState := by
  unfold sensorLogSection; split <;> rfl

@[simp] lemma sensorLogSection_doorOpenCount (a b c d : ℚ) (s : MachState) :
    (sensorLogSection a b c d s).1.doorOpenCount = s.doorOpenCount := by
  unfold sensorLogSection; split <;> rfl

@[simp] lemma sensorLogSection_doorClosedCount (a b c d : ℚ) (s : MachState) :
    (sensorLogSection a b c d s).1.doorClosedCount = s.doorClosedCount := by
  unfold sensorLogSection; split <;> rfl

@[simp] lemma sensorLogSection_doorFlag (a b c d : ℚ) (s : MachState) :
    (sensorLogSection a b c d s).1.doorOpenWarningActive = s.doorOpenWarningActive := by
  unfold sensorLogSection; split <;> rfl

@[simp] lemma sensorLogSection_overloadFlag (a b c d : ℚ) (s : MachState) :
    (sensorLogSection a b c d s).1.overloadWarningActive = s.overloadWarningActive := by
  unfold sensorLogSection; split <;> rfl

@[simp] lemma sensorLogSection_lastPower (a b c d : ℚ) (s : MachState) :
    (sensorLogSection a b c d s).1.lastPowerState = s.lastPowerState := by
  unfold sensorLogSection; split <;> rfl

@[simp] lemma sensorLogSection_lastStart (a b c d : ℚ) (s : MachState) :
    (sensorLogSection a b c d s).1.lastStartState = s.lastStartState := by
  unfold sensorLogSection; split <;> rfl

@[simp] lemma doorSection_systemState (raw : Bool) (s : MachState) :
    (doorSection raw s).1.systemState = s.systemState := by
  unfold doorSection; dsimp only; split <;> rfl

@[simp] lemma doorSection_overloadFlag (raw : Bool) (s : MachState) :
    (doorSection raw s).1.overloadWarningActive = s.overloadWarningActive := by
  unfold doorSection; dsimp only; split <;> rfl

@[simp] lemma doorSection_lastPower (raw : Bool) (s : MachState) :
    (doorSection raw s).1.lastPowerState = s.lastPowerState := by
  unfold doorSection; dsimp only; split <;> rfl

@[simp] lemma doorSection_lastStart (raw : Bool) (s : MachState) :
    (doorSection raw s).1.lastStartState = s.lastStartState := by
  unfold doorSection; dsimp only; split <;> rfl

@[simp] lemma doorSection_doorOpenCount (raw : Bool) (s : MachState) :
    (doorSection raw s).1.doorOpenCount =
      (doorDebounceCore raw s.doorOpenCount s.doorClosedCount s.doorOpenWarningActive).1 := by
  unfold doorSection; dsimp only; split <;> rfl

@[simp] lemma doorSection_doorClosedCount (raw : Bool) (s : MachState) :
    (doorSection raw s).1.doorClosedCount =
      (doorDebounceCore raw s.doorOpenCount s.doorClosedCount s.doorOpenWarningActive).2.1 := by
  unfold doorSection; dsimp only; split <;> rfl

@[simp] lemma doorSection_doorFlag (raw : Bool) (s : MachState) :
    (doorSection raw s).1.doorOpenWarningActive =
      (doorDebounceCore raw s.doorOpenCount s.doorClosedCount s.doorOpenWarningActive).2.2 := by
  unfold doorSection
  dsimp only
  split
  · rfl
  · next h => simpa using (not_ne_iff.mp h).symm

@[simp] lemma overloadSection_systemState (fsr : ℚ) (s : MachState) :
    (overloadSection fsr s).1.systemState = s.systemState := by
  unfold overloadSection; dsimp only; split <;> rfl

@[simp] lemma overloadSection_doorOpenCount (fsr : ℚ) (s : MachState) :
    (overloadSection fsr s).1.doorOpenCount = s.doorOpenCount := by
  unfold overloadSection; dsimp only; split <;> rfl

@[simp] lemma overloadSection_doorClosedCount (fsr : ℚ) (s : MachState) :
    (overloadSection fsr s).1.doorClosedCount = s.doorClosedCount := by
  unfold overloadSection; dsimp only; split <;> rfl

@[simp] lemma overloadSection_doorFlag (fsr : ℚ) (s : MachState) :
    (overloadSection fsr s).1.doorOpenWarningActive = s.doorOpenWarningActive := by
  unfold overloadSection; dsimp only; split <;> rfl

@[simp] lemma overloadSection_lastPower (fsr : ℚ) (s : MachState) :
    (overloadSection fsr s).1.lastPowerState = s.lastPowerState := by
  unfold overloadSection; dsimp only; split <;> rfl

@[simp] lemma overloadSection_lastStart (fsr : ℚ) (s : MachState) :
    (overloadSection fsr s).1.lastStartState = s.lastStartState := by
  unfold overloadSection; dsimp only; split <;> rfl

@[simp] lemma overloadSection_overloadFlag (fsr : ℚ) (s : MachState) :
    (overloadSection fsr s).1.overloadWarningActive = isOverloaded fsr := by
  unfold overloadSection
  dsimp only
  split
  · rfl
  · next h => simpa using (not_ne_iff.mp h).symm

/-! Derived facts about one whole readAndProcessSensors poll. -/

lemma raps_systemState (s : MachState) (inp : SensorInputs) :
    (readAndProcessSensors s inp).1.systemState = s.systemState := by
  simp [readAndProcessSensors]

lemma raps_doorOpenCount (s : MachState) (inp : SensorInputs) :
    (readAndProcessSensors s inp).1.doorOpenCount =
      (doorDebounceCore (isDoorOpen inp.ldrRawDebounce)
        s.doorOpenCount s.doorClosedCount s.doorOpenWarningActive).1 := by
  simp [readAndProcessSensors]

lemma raps_doorClosedCount (s : MachState) (inp : SensorInputs) :
    (readAndProcessSensors s inp).1.doorClosedCount =
      (doorDebounceCore (isDoorOpen inp.ldrRawDebounce)
        s.doorOpenCount s.doorClosedCount s.doorOpenWarningActive).2.1 := by
  simp [readAndProcessSensors]

lemma raps_doorFlag (s : MachState) (inp : SensorInputs) :
    (readAndProcessSensors s inp).1.doorOpenWarningActive =
      (doorDebounceCore (isDoorOpen inp.ldrRawDebounce)
        s.doorOpenCount s.doorClosedCount s.doorOpenWarningActive).2.2 := by
  simp [readAndProcessSensors]

lemma raps_overloadFlag (s : MachState) (inp : SensorInputs) :
    (readAndProcessSensors s inp).1.overloadWarningActive =
      isOverloaded (readAveragedSensor inp.fsrSamples 1) := by
  simp [readAndProcessSensors]

lemma roundf_of_nonneg {x : ℚ} (h : 0 ≤ x) : roundf x = round x := by
  unfold roundf; rw [if_neg (not_lt.mpr h)]

lemma round_mono_rat {x y : ℚ} (h : x ≤ y) : round x ≤ round y := by
  rw [round_eq, round_eq]
  exact Int.floor_le_floor (by linarith)

/-- C5: the potentiometer-to-minutes mapping used at cycle start
(`timeMinutesStart`, main.cpp lines 326-327) is monotone non-decreasing on
raw values in [0,1], clamped to at most 90 minutes, maps 1.0 to 90 and 0.0
to 10, and the variant computed each IDLE poll (main.cpp lines 205-208)
agrees with it everywhere. -/
theorem time_mapping_monotone_clamped :
    (∀ p q : ℚ, 0 ≤ p → p ≤ q → q ≤ 1 → timeMinutesStart p ≤ timeMinutesStart q) ∧
    (∀ p : ℚ, timeMinutesStart p ≤ 90) ∧
    timeMinutesStart 1 = 90 ∧ timeMinutesStart 0 = 10 ∧
    (∀ p : ℚ, timeMinutesIdle p = timeMinutesStart p) := by
  refine ⟨?_, ?_, ?_, ?_, ?_⟩
  · intro p q hp hpq _
    unfold timeMinutesStart
    have h8p : (0 : ℚ) ≤ p * 8 := by linarith
    have h8q : (0 : ℚ) ≤ q * 8 := by linarith
    rw [roundf_of_nonneg h8p, roundf_of_nonneg h8q]
    have hr : round (p * 8) ≤ round (q * 8) := round_mono_rat (by linarith)
    dsimp only
    split_ifs <;> omega
  · intro p
    unfold timeMinutesStart
    dsimp only
    split_ifs with h <;> omega
  · norm_num [timeMinutesStart, roundf, round_eq]
  · norm_num [timeMinutesStart, roundf, round_eq]
  · intro p
    unfold timeMinutesIdle timeMinutesStart
    dsimp only
    split_ifs <;> omega

/-- Witness for C5 at the concrete endpoints 0 and 1. -/
theorem time_mapping_monotone_clamped_witness :
    ((0 : ℚ) ≤ 0 ∧ (0 : ℚ) ≤ 1 ∧ (1 : ℚ) ≤ 1) ∧
    timeMinutesStart 0 ≤ timeMinutesStart 1 :=
  ⟨⟨le_refl 0, by norm_num, le_refl 1⟩,
   time_mapping_monotone_clamped.1 0 1 (le_refl 0) (by norm_num) (le_refl 1)⟩

/-- C6: the load classifier is total on all rationals with half-open
interval boundaries at the fixed ascending thresholds, load 0.2 classifies
as Normal, and the RGB write of setLoadLevelColor is exactly the fixed
colour of the classified tier. -/
theorem load_classifier_half_open_intervals :
    (∀ l : ℚ, l < LOAD_LIGHT → classify l = LoadTier.Light) ∧
    (∀ l : ℚ, LOAD_LIGHT ≤ l → l < LOAD_MEDIUM → classify l = LoadTier.Normal) ∧
    (∀ l : ℚ, LOAD_MEDIUM ≤ l → l < LOAD_HEAVY → classify l = LoadTier.Medium) ∧
    (∀ l : ℚ, LOAD_HEAVY ≤ l → l < LOAD_OVERLOAD → classify l = LoadTier.Heavy) ∧
    (∀ l : ℚ, LOAD_OVERLOAD ≤ l → classify l = LoadTier.Overload) ∧
    classify (2/10) = LoadTier.Normal ∧
    (∀ l : ℚ, setLoadLevelColorRGB l = tierColor (classify l)) := by
  have hlm : LOAD_LIGHT < LOAD_MEDIUM := by norm_num [LOAD_LIGHT, LOAD_MEDIUM]
  have hmh : LOAD_MEDIUM < LOAD_HEAVY := by norm_num [LOAD_MEDIUM, LOAD_HEAVY]
  have hho : LOAD_HEAVY < LOAD_OVERLOAD := by norm_num [LOAD_HEAVY, LOAD_OVERLOAD]
  refine ⟨?_, ?_, ?_, ?_, ?_, ?_, ?_⟩
  · intro l h
    rw [classify, if_pos h]
  · intro l h1 h2
    rw [classify, if_neg (not_lt.mpr h1), if_pos h2]
  · intro l h1 h2
    rw [classify, if_neg (not_lt.mpr (by linarith)), if_neg (not_lt.mpr h1), if_pos h2]
  · intro l h1 h2
    rw [classify, if_neg (not_lt.mpr (by linarith)), if_neg (not_lt.mpr (by linarith)),
      if_neg (not_lt.mpr h1), if_pos h2]
  · intro l h1
    rw [classify, if_neg (not_lt.mpr (by linarith)), if_neg (not_lt.mpr (by linarith)),
      if_neg (not_lt.mpr (by linarith)), if_neg (not_lt.mpr h1)]
  · norm_num [classify, LOAD_LIGHT, LOAD_MEDIUM]
  · intro l
    unfold setLoadLevelColorRGB classify tierColor
    split_ifs <;> rfl

/-- Witness for C6 at concrete loads, including one outside [0,1]. -/
theorem load_classifier_half_open_intervals_witness :
    ((-1 : ℚ) < LOAD_LIGHT ∧ classify (-1) = LoadTier.Light) ∧
    (LOAD_OVERLOAD ≤ (3/2 : ℚ) ∧ classify (3/2) = LoadTier.Overload) :=
  ⟨⟨by norm_num [LOAD_LIGHT],
    load_classifier_half_open_intervals.1 (-1) (by norm_num [LOAD_LIGHT])⟩,
   ⟨by norm_num [LOAD_OVERLOAD],
    load_classifier_half_open_intervals.2.2.2.2.1 (3/2) (by norm_num [LOAD_OVERLOAD])⟩⟩

/-- C7 counterexample: powerOff does not reset the previous-value sentinels;
a machine whose prevFsr is 0.5 keeps prevFsr = 0.5 (not -1) after power-off. -/
theorem powerOff_keeps_previous_readings :
    ¬ (((powerOff {mainInit with systemState := SystemState.IDLE, prevFsr := 1/2}).1).prevFsr
        = -1) := by
  norm_num [powerOff, mainInit]

/-- C7 amended: after powerOff the system is OFF and both hysteresis flags
are inactive, but the AveragedReading previous-value fields are left
unchanged rather than reset to the -1 sentinel. -/
theorem powerOff_state_after (s : MachState) :
    ((powerOff s).1).systemState = SystemState.OFF ∧
    ((powerOff s).1).doorOpenWarningActive = false ∧
    ((powerOff s).1).overloadWarningActive = false ∧
    ((powerOff s).1).prevFsr = s.prevFsr ∧
    ((powerOff s).1).prevLdr = s.prevLdr ∧
    ((powerOff s).1).prevTempActual = s.prevTempActual :=
  ⟨rfl, rfl, rfl, rfl, rfl, rfl⟩

/-- C9: at load exactly 0.7 the RGB actuator shows the Overload colour (red)
because the strict Heavy test fails, while isOverloaded(0.7) is false, so a
0.7 averaged reading raises no overload warning and leaves the flag clear,
and a subsequent start press is not blocked (settings are captured). -/
theorem overload_boundary_mismatch :
    setLoadLevelColorRGB (7/10) = (1, 0, 0) ∧
    classify (7/10) = LoadTier.Overload ∧
    isOverloaded (7/10) = false ∧
    ((readAndProcessSensors {mainInit with systemState := SystemState.IDLE}
        {zeroSensors with fsrSamples := [7/10, 7/10, 7/10, 7/10, 7/10]}).1).overloadWarningActive
      = false ∧
    Event.logOverloadWarning ∉
      (readAndProcessSensors {mainInit with systemState := SystemState.IDLE}
        {zeroSensors with fsrSamples := [7/10, 7/10, 7/10, 7/10, 7/10]}).2 ∧
    Event.rgb 1 0 0 ∈
      (readAndProcessSensors {mainInit with systemState := SystemState.IDLE}
        {zeroSensors with fsrSamples := [7/10, 7/10, 7/10, 7/10, 7/10]}).2 ∧
    Event.readPots ∈
      (handleButtons {mainInit with systemState := SystemState.IDLE, lastStartState := 1}
        {idleButtons with startLevel := 0}).2 := by
  refine ⟨?_, ?_, ?_, ?_, ?_, ?_, ?_⟩
  · norm_num [setLoadLevelColorRGB, LOAD_LIGHT, LOAD_MEDIUM, LOAD_HEAVY, LOAD_OVERLOAD]
  · norm_num [classify, LOAD_LIGHT, LOAD_MEDIUM, LOAD_HEAVY, LOAD_OVERLOAD]
  · norm_num [isOverloaded, LOAD_OVERLOAD]
  · norm_num [readAndProcessSensors, potsSection, sensorLogSection, doorSection,
      overloadSection, doorDebounceCore, hasSignificantChange, isDoorOpen, isOverloaded,
      readAveragedSensor, mainInit, zeroSensors, timeMinutesIdle, roundf, round_eq, truncf,
      NUM_SAMPLES, FSR_THRESHOLD, TEMP_THRESHOLD, LDR_THRESHOLD, TEMP_SENSOR_CALIBRATION,
      DOOR_OPEN_THRESHOLD, LOAD_OVERLOAD, DEBOUNCE_COUNT]
  · norm_num [readAndProcessSensors, potsSection, sensorLogSection, doorSection,
      overloadSection, doorDebounceCore, hasSignificantChange, isDoorOpen, isOverloaded,
      readAveragedSensor, mainInit, zeroSensors, timeMinutesIdle, roundf, round_eq, truncf,
      NUM_SAMPLES, FSR_THRESHOLD, TEMP_THRESHOLD, LDR_THRESHOLD, TEMP_SENSOR_CALIBRATION,
      DOOR_OPEN_THRESHOLD, LOAD_OVERLOAD, DEBOUNCE_COUNT, updateDisplayPattern, hexDis,
      setLoadLevelColorRGB, LOAD_LIGHT, LOAD_MEDIUM, LOAD_HEAVY]
    simp
  · norm_num [readAndProcessSensors, potsSection, sensorLogSection, doorSection,
      overloadSection, doorDebounceCore, hasSignificantChange, isDoorOpen, isOverloaded,
      readAveragedSensor, mainInit, zeroSensors, timeMinutesIdle, roundf, round_eq, truncf,
      NUM_SAMPLES, FSR_THRESHOLD, TEMP_THRESHOLD, LDR_THRESHOLD, TEMP_SENSOR_CALIBRATION,
      DOOR_OPEN_THRESHOLD, LOAD_OVERLOAD, DEBOUNCE_COUNT, updateDisplayPattern, hexDis,
      setLoadLevelColorRGB, LOAD_LIGHT, LOAD_MEDIUM, LOAD_HEAVY]
  · norm_num [handleButtons, powerButtonStep, startButtonStep, startPressAction,
      mainInit, idleButtons, timeMinutesStart, roundf, round_eq, truncf,
      runCycleCountdown, countdownLoop, updateDisplayPattern, hexDis]
    simp

/-- C8 counterexample: on completion the countdown (run while RUNNING) never
writes the blank pattern 0x00; its final display write is the digit-0
segment pattern 0x3F. -/
theorem countdown_final_display_not_blank :
    Event.display 0x00 ∉ runCycleCountdown SystemState.RUNNING 30 ∧
    Event.display 0x3F ∈ runCycleCountdown SystemState.RUNNING 30 :=
  ⟨by decide, by decide⟩

/-- C1 counterexample: the overload flag has no hysteresis. From an
inactive overload flag, a single poll whose averaged load reads 1.0 (one
opposing raw sample, fewer than requiredCount = 3) already toggles the flag
to active. -/
theorem overload_flag_toggles_after_one_sample :
    ({mainInit with systemState := SystemState.IDLE} : MachState).overloadWarningActive
      = false ∧
    ((readAndProcessSensors {mainInit with systemState := SystemState.IDLE}
        {zeroSensors with fsrSamples := [1, 1, 1, 1, 1]}).1).overloadWarningActive = true := by
  constructor
  · rfl
  · norm_num [readAndProcessSensors, potsSection, sensorLogSection, doorSection,
      overloadSection, doorDebounceCore, hasSignificantChange, isDoorOpen, isOverloaded,
      readAveragedSensor, mainInit, zeroSensors, timeMinutesIdle, roundf, round_eq, truncf,
      NUM_SAMPLES, FSR_THRESHOLD, TEMP_THRESHOLD, LDR_THRESHOLD, TEMP_SENSOR_CALIBRATION,
      DOOR_OPEN_THRESHOLD, LOAD_OVERLOAD, DEBOUNCE_COUNT]

/-- C1 amended: the DOOR flag never toggles on fewer than requiredCount = 3
consecutive opposing raw samples: from any state whose opposing streak
counter is zero, feeding fewer than 3 opposing polls and then one poll that
reverts leaves the door flag unchanged.  The overload flag instead simply
follows the instantaneous comparison of each poll's averaged load. -/
theorem door_flag_no_toggle_under_three_opposing :
    (∀ (s : MachState) (inps : List SensorInputs) (j : SensorInputs),
      (if s.doorOpenWarningActive then s.doorClosedCount else s.doorOpenCount) = 0 →
      inps.length < DEBOUNCE_COUNT →
      (∀ i ∈ inps, isDoorOpen i.ldrRawDebounce = !s.doorOpenWarningActive) →
      isDoorOpen j.ldrRawDebounce = s.doorOpenWarningActive →
      (runPolls s (inps ++ [j])).doorOpenWarningActive = s.doorOpenWarningActive) ∧
    (∀ (s : MachState) (inp : SensorInputs),
      (readAndProcessSensors s inp).1.overloadWarningActive =
        isOverloaded (readAveragedSensor inp.fsrSamples 1)) := by
  constructor
  · intro s inps j h0 hlen hopp hrev
    cases hflag : s.doorOpenWarningActive with
    | false =>
        rw [hflag] at h0 hrev
        simp only [if_false, Bool.false_eq_true] at h0
        rcases inps with _ | ⟨a, _ | ⟨b, _ | ⟨c, t⟩⟩⟩
        · simp [runPolls, raps_doorFlag, hrev, hflag, doorDebounceCore, DEBOUNCE_COUNT]
        · have ha := hopp a (by simp)
          rw [hflag] at ha
          simp [runPolls, raps_doorFlag, raps_doorOpenCount, raps_doorClosedCount,
            ha, hrev, hflag, h0, doorDebounceCore, DEBOUNCE_COUNT]
        · have ha := hopp a (by simp)
          have hb := hopp b (by simp)
          rw [hflag] at ha hb
          simp [runPolls, raps_doorFlag, raps_doorOpenCount, raps_doorClosedCount,
            ha, hb, hrev, hflag, h0, doorDebounceCore, DEBOUNCE_COUNT]
        · simp [DEBOUNCE_COUNT] at hlen
          omega
    | true =>
        rw [hflag] at h0 hrev
        simp only [if_true] at h0
        rcases inps with _ | ⟨a, _ | ⟨b, _ | ⟨c, t⟩⟩⟩
        · simp [runPolls, raps_doorFlag, hrev, hflag, doorDebounceCore, DEBOUNCE_COUNT]
        · have ha := hopp a (by simp)
          rw [hflag] at ha
          simp [runPolls, raps_doorFlag, raps_doorOpenCount, raps_doorClosedCount,
            ha, hrev, hflag, h0, doorDebounceCore, DEBOUNCE_COUNT]
        · have ha := hopp a (by simp)
          have hb := hopp b (by simp)
          rw [hflag] at ha hb
          simp [runPolls, raps_doorFlag, raps_doorOpenCount, raps_doorClosedCount,
            ha, hb, hrev, hflag, h0, doorDebounceCore, DEBOUNCE_COUNT]
        · simp [DEBOUNCE_COUNT] at hlen
          omega
  · exact raps_overloadFlag

/-- Witness for C1 amended: two door-open polls then a closed poll, from the
fresh IDLE state, leave the door flag inactive. -/
theorem door_flag_no_toggle_under_three_opposing_witness :
    (runPolls {mainInit with systemState := SystemState.IDLE}
      ([{zeroSensors with ldrRawDebounce := 50}, {zeroSensors with ldrRawDebounce := 50}]
        ++ [zeroSensors])).doorOpenWarningActive
      = ({mainInit with systemState := SystemState.IDLE} : MachState).doorOpenWarningActive :=
  door_flag_no_toggle_under_three_opposing.1 _ _ _
    (by norm_num [mainInit])
    (by simp [DEBOUNCE_COUNT])
    (by
      intro i hi
      simp only [List.mem_cons, List.not_mem_nil, or_false] at hi
      rcases hi with rfl | rfl <;>
        norm_num [isDoorOpen, DOOR_OPEN_THRESHOLD, mainInit, zeroSensors])
    (by norm_num [isDoorOpen, DOOR_OPEN_THRESHOLD, mainInit, zeroSensors])

/-- C3: from the door flag inactive with both counters zero, three
consecutive open polls set the flag on the 3rd poll and not on the 2nd;
symmetrically, from the flag active with the closed counter zero, the flag
goes back to false exactly once three consecutive closed polls have
accumulated, and not before. -/
theorem door_flag_three_poll_transition :
    (∀ (s : MachState) (i1 i2 i3 : SensorInputs),
      s.doorOpenWarningActive = false → s.doorOpenCount = 0 → s.doorClosedCount = 0 →
      isDoorOpen i1.ldrRawDebounce = true → isDoorOpen i2.ldrRawDebounce = true →
      isDoorOpen i3.ldrRawDebounce = true →
      (runPolls s [i1, i2]).doorOpenWarningActive = false ∧
      (runPolls s [i1, i2, i3]).doorOpenWarningActive = true) ∧
    (∀ (s : MachState) (j1 j2 j3 : SensorInputs),
      s.doorOpenWarningActive = true → s.doorClosedCount = 0 →
      isDoorOpen j1.ldrRawDebounce = false → isDoorOpen j2.ldrRawDebounce = false →
      isDoorOpen j3.ldrRawDebounce = false →
      (runPolls s [j1]).doorOpenWarningActive = true ∧
      (runPolls s [j1, j2]).doorOpenWarningActive = true ∧
      (runPolls s [j1, j2, j3]).doorOpenWarningActive = false) := by
  constructor
  · intro s i1 i2 i3 hflag hoc hcc h1 h2 h3
    constructor <;>
      simp [runPolls, raps_doorFlag, raps_doorOpenCount, raps_doorClosedCount,
        h1, h2, h3, hflag, hoc, hcc, doorDebounceCore, DEBOUNCE_COUNT]
  · intro s j1 j2 j3 hflag hcc h1 h2 h3
    refine ⟨?_, ?_, ?_⟩ <;>
      simp [runPolls, raps_doorFlag, raps_doorOpenCount, raps_doorClosedCount,
        h1, h2, h3, hflag, hcc, doorDebounceCore, DEBOUNCE_COUNT]

/-- Witness for C3: concrete open polls (LDR raw 50) from the fresh IDLE
state flip the flag on the 3rd poll and not on the 2nd. -/
theorem door_flag_three_poll_transition_witness :
    (runPolls {mainInit with systemState := SystemState.IDLE}
      [{zeroSensors with ldrRawDebounce := 50}, {zeroSensors with ldrRawDebounce := 50}]).doorOpenWarningActive
      = false ∧
    (runPolls {mainInit with systemState := SystemState.IDLE}
      [{zeroSensors with ldrRawDebounce := 50}, {zeroSensors with ldrRawDebounce := 50},
       {zeroSensors with ldrRawDebounce := 50}]).doorOpenWarningActive = true :=
  door_flag_three_poll_transition.1 _ _ _ _
    rfl rfl rfl
    (by norm_num [isDoorOpen, DOOR_OPEN_THRESHOLD, zeroSensors])
    (by norm_num [isDoorOpen, DOOR_OPEN_THRESHOLD, zeroSensors])
    (by norm_num [isDoorOpen, DOOR_OPEN_THRESHOLD, zeroSensors])

/-! Facts about handleButtons. -/

lemma powerButtonStep_noFire (lv : ℕ) (s : MachState)
    (h : ¬(lv = 0 ∧ s.lastPowerState = 1)) :
    powerButtonStep lv s = (if lv = 1 then {s with lastPowerState := 1} else s, []) := by
  simp only [powerButtonStep, h, if_false, eq_self_iff_true]
  split <;> rfl

/-- C2: a start press in IDLE while the door flag or the overload flag is
active leaves the state IDLE, reads no pots, logs no cycle-start line, and
emits a rejection log plus the 300 Hz rejection beep. -/
theorem start_refused_when_flag_active
    (s : MachState) (i : BtnInputs)
    (hIdle : s.systemState = SystemState.IDLE)
    (hFlag : s.doorOpenWarningActive = true ∨ s.overloadWarningActive = true)
    (hLv : i.startLevel = 0) (hLast : s.lastStartState = 1)
    (hNoPow : ¬(i.powerLevel = 0 ∧ s.lastPowerState = 1)) :
    (handleButtons s i).1.systemState = SystemState.IDLE ∧
    Event.readPots ∉ (handleButtons s i).2 ∧
    (∀ r t m : ℤ, Event.logStartingCycle r t m ∉ (handleButtons s i).2) ∧
    (Event.logCannotStartDoor ∈ (handleButtons s i).2 ∨
      Event.logCannotStartOverload ∈ (handleButtons s i).2) ∧
    Event.beep 300 500 ∈ (handleButtons s i).2 := by
  by_cases hd : s.doorOpenWarningActive = true
  · by_cases hp : i.powerLevel = 1 <;>
      simp [handleButtons, powerButtonStep, startButtonStep, startPressAction,
        hNoPow, hp, hLv, hLast, hIdle, hd]
  · have ho : s.overloadWarningActive = true := hFlag.resolve_left hd
    have hd' : s.doorOpenWarningActive = false := by simpa using hd
    by_cases hp : i.powerLevel = 1 <;>
      simp [handleButtons, powerButtonStep, startButtonStep, startPressAction,
        hNoPow, hp, hLv, hLast, hIdle, hd', ho]

/-- Witness for C2: concrete IDLE state with the door flag active and a
start press; the state stays IDLE and the rejection beep is emitted. -/
theorem start_refused_when_flag_active_witness :
    (handleButtons
       {mainInit with systemState := SystemState.IDLE, doorOpenWarningActive := true,
                      lastStartState := 1}
       {idleButtons with startLevel := 0}).1.systemState = SystemState.IDLE ∧
    Event.beep 300 500 ∈
      (handleButtons
        {mainInit with systemState := SystemState.IDLE, doorOpenWarningActive := true,
                       lastStartState := 1}
        {idleButtons with startLevel := 0}).2 :=
  ⟨(start_refused_when_flag_active _ _ rfl (Or.inl rfl) rfl rfl (by simp [mainInit, idleButtons])).1,
   (start_refused_when_flag_active _ _ rfl (Or.inl rfl) rfl rfl (by simp [mainInit, idleButtons])).2.2.2.2⟩

/-! Facts about the edge detector folded over level streams. -/

lemma buttonRun_zeros_from_zero (n c : ℕ) :
    List.foldl buttonPoll (c, 0) (List.replicate n 0) = (c, 0) := by
  induction n with
  | zero => rfl
  | succ m ih =>
      rw [List.replicate_succ, List.foldl_cons]
      simpa [buttonPoll, buttonEdge] using ih

lemma buttonRun_ones_from_one (n c : ℕ) :
    List.foldl buttonPoll (c, 1) (List.replicate n 1) = (c, 1) := by
  induction n with
  | zero => rfl
  | succ m ih =>
      rw [List.replicate_succ, List.foldl_cons]
      simpa [buttonPoll, buttonEdge] using ih

lemma buttonRun_zeros_from_one (n c : ℕ) (h : 1 ≤ n) :
    List.foldl buttonPoll (c, 1) (List.replicate n 0) = (c + 1, 0) := by
  cases n with
  | zero => omega
  | succ m =>
      rw [List.replicate_succ, List.foldl_cons]
      simpa [buttonPoll, buttonEdge] using buttonRun_zeros_from_zero m (c + 1)

lemma buttonRun_ones_from_zero (n c : ℕ) (h : 1 ≤ n) :
    List.foldl buttonPoll (c, 0) (List.replicate n 1) = (c, 1) := by
  cases n with
  | zero => omega
  | succ m =>
      rw [List.replicate_succ, List.foldl_cons]
      simpa [buttonPoll, buttonEdge] using buttonRun_ones_from_one m c

lemma startPressAction_lastStart (a b c : ℚ) (s : MachState) :
    (startPressAction a b c s).1.lastStartState = s.lastStartState := by
  unfold startPressAction; dsimp only; split_ifs <;> rfl

lemma startButtonStep_lastPower (lv : ℕ) (a b c : ℚ) (s : MachState) :
    (startButtonStep lv a b c s).1.lastPowerState = s.lastPowerState := by
  unfold startButtonStep startPressAction; dsimp only; split_ifs <;> rfl

lemma powerButtonStep_lastPower (lv : ℕ) (s : MachState)
    (hlv : lv = 0 ∨ lv = 1) (hlast : s.lastPowerState = 0 ∨ s.lastPowerState = 1) :
    (powerButtonStep lv s).1.lastPowerState = lv := by
  rcases hlv with rfl | rfl
  · rcases hlast with h | h
    · simp [powerButtonStep, h]
    · by_cases hs : s.systemState = SystemState.OFF <;>
        simp [powerButtonStep, powerOn, powerOff, h, hs]
  · simp [powerButtonStep]

/-- C4 counterexample: for the start button, lastLevel does NOT track
currentLevel on every poll.  With the system OFF and lastStartState = 1, a
poll with the start level pressed (0) leaves lastStartState at 1. -/
theorem start_edge_not_tracked_when_off :
    ¬ (((handleButtons {mainInit with lastStartState := 1}
          {idleButtons with startLevel := 0}).1).lastStartState
        = ({idleButtons with startLevel := 0} : BtnInputs).startLevel) := by
  simp [handleButtons, powerButtonStep, startButtonStep, startPressAction,
    mainInit, idleButtons]

/-- C4 amended: the edge detector as instantiated for the power button, and
for the start button while the system is on, fires exactly when the level
is pressed (0) and the last level was released (1), yields exactly one
event for a held press and one more per release-then-press cycle, and
lastLevel tracks currentLevel; for the start button this tracking holds
only when the system is not OFF (while OFF, a pressed poll leaves
lastStartState unchanged). -/
theorem button_edge_detector_contract :
    (∀ lv last : ℕ, (lv = 0 ∨ lv = 1) → (last = 0 ∨ last = 1) →
      ((buttonEdge lv last).1 = true ↔ (lv = 0 ∧ last = 1)) ∧
      (buttonEdge lv last).2 = lv) ∧
    (∀ N : ℕ, 1 ≤ N → buttonRun 1 (List.replicate N 0) = (1, 0)) ∧
    (∀ N K M : ℕ, 1 ≤ N → 1 ≤ K → 1 ≤ M →
      (buttonRun 1 (List.replicate N 0 ++ List.replicate K 1 ++ List.replicate M 0)).1 = 2) ∧
    (∀ (s : MachState) (i : BtnInputs),
      (i.powerLevel = 0 ∨ i.powerLevel = 1) →
      (s.lastPowerState = 0 ∨ s.lastPowerState = 1) →
      (handleButtons s i).1.lastPowerState = i.powerLevel) ∧
    (∀ (s : MachState) (i : BtnInputs),
      (i.startLevel = 0 ∨ i.startLevel = 1) →
      (s.lastStartState = 0 ∨ s.lastStartState = 1) →
      s.systemState ≠ SystemState.OFF →
      ¬(i.powerLevel = 0 ∧ s.lastPowerState = 1) →
      (handleButtons s i).1.lastStartState = i.startLevel) := by
  refine ⟨?_, ?_, ?_, ?_, ?_⟩
  · intro lv last hlv hlast
    rcases hlv with rfl | rfl <;> rcases hlast with rfl | rfl <;>
      exact ⟨by decide, by decide⟩
  · intro N h
    unfold buttonRun
    simpa using buttonRun_zeros_from_one N 0 h
  · intro N K M hN hK hM
    unfold buttonRun
    rw [List.foldl_append, List.foldl_append,
      buttonRun_zeros_from_one N 0 hN, buttonRun_ones_from_zero K 1 hK,
      buttonRun_zeros_from_one M 1 hM]
  · intro s i hlv hlast
    unfold handleButtons
    dsimp only
    rw [startButtonStep_lastPower]
    exact powerButtonStep_lastPower _ _ hlv hlast
  · intro s i hlv hlast hOn hNoPow
    have h1 : (handleButtons s i).1.lastStartState
        = (startButtonStep i.startLevel i.potRPM i.potTemp i.potTime
            (powerButtonStep i.powerLevel s).1).1.lastStartState := rfl
    rw [h1, powerButtonStep_noFire _ _ hNoPow]
    rcases hlv with hlv | hlv
    · rcases hlast with hl | hl
      · by_cases hp : i.powerLevel = 1 <;>
          simp [startButtonStep, hp, hlv, hl]
      · by_cases hp : i.powerLevel = 1 <;>
          simp [startButtonStep, hp, hlv, hl, hOn, startPressAction_lastStart]
    · by_cases hp : i.powerLevel = 1 <;>
        simp [startButtonStep, hp, hlv]

/-- Witness for C4 amended at concrete levels, streams and states. -/
theorem button_edge_detector_contract_witness :
    (((buttonEdge 0 1).1 = true ↔ ((0 : ℕ) = 0 ∧ (1 : ℕ) = 1)) ∧ (buttonEdge 0 1).2 = 0) ∧
    buttonRun 1 (List.replicate 5 0) = (1, 0) ∧
    (buttonRun 1 (List.replicate 2 0 ++ List.replicate 2 1 ++ List.replicate 3 0)).1 = 2 ∧
    (handleButtons mainInit idleButtons).1.lastPowerState = idleButtons.powerLevel ∧
    (handleButtons {mainInit with systemState := SystemState.IDLE}
      idleButtons).1.lastStartState = idleButtons.startLevel :=
  ⟨button_edge_detector_contract.1 0 1 (Or.inl rfl) (Or.inr rfl),
   button_edge_detector_contract.2.1 5 (by omega),
   button_edge_detector_contract.2.2.1 2 2 3 (by omega) (by omega) (by omega),
   button_edge_detector_contract.2.2.2.1 mainInit idleButtons (Or.inr rfl) (Or.inl rfl),
   button_edge_detector_contract.2.2.2.2 {mainInit with systemState := SystemState.IDLE}
     idleButtons (Or.inr rfl) (Or.inl rfl) (by simp [mainInit]) (by simp [mainInit, idleButtons])⟩

/-- Display-write extractor for event traces. -/
def dispPat : Event → Option ℕ
  | Event.display p => some p
  | _ => none

/-- Beep recogniser for event traces. -/
def isBeepEvent : Event → Bool
  | Event.beep _ _ => true
  | _ => false

lemma updateDisplayPattern_not_off (st : SystemState) (hst : ¬ st = SystemState.OFF)
    (v : ℤ) : updateDisplayPattern st v = hexDis.getD (v % 10).toNat 0 := by
  unfold updateDisplayPattern; rw [if_neg hst]

lemma countdownLoop_filterMap_disp (st : SystemState) (hst : ¬ st = SystemState.OFF) :
    ∀ n, (countdownLoop st n).filterMap dispPat
      = (List.range n).reverse.map (fun k => hexDis.getD ((k + 1) % 10) 0) := by
  intro n
  induction n with
  | zero => simp [countdownLoop]
  | succ i ih =>
      rw [show countdownLoop st (i + 1)
          = Event.display (updateDisplayPattern st ((i + 1 : ℕ) : ℤ)) ::
            Event.logCycleCountdown (i + 1) :: countdownLoop st i from rfl]
      rw [updateDisplayPattern_not_off st hst]
      have hidx : ((((i + 1 : ℕ) : ℤ)) % 10).toNat = (i + 1) % 10 := by omega
      rw [hidx]
      simp [dispPat, ih, List.range_succ]

lemma countdownLoop_filter_beep (st : SystemState) (n : ℕ) :
    (countdownLoop st n).filter isBeepEvent = [] := by
  induction n with
  | zero => simp [countdownLoop]
  | succ i ih => simp [countdownLoop, isBeepEvent, ih]

/-- C8 amended: for any minute total M, the countdown computes steps =
M / 10 and writes the display patterns of steps, steps-1, ..., 1 followed
by the digit-0 pattern (hexDis[0] = 0x3F, not a blank display); exactly
three completion beeps are emitted; and a successful start press from IDLE
(flags clear) returns the system to IDLE after the synchronous countdown. -/
theorem countdown_steps_and_completion :
    (∀ minutes : ℤ,
      (runCycleCountdown SystemState.RUNNING minutes).filterMap dispPat
        = ((List.range (minutes.toNat / 10)).reverse.map
            (fun k => hexDis.getD ((k + 1) % 10) 0)) ++ [hexDis.getD 0 0] ∧
      ((runCycleCountdown SystemState.RUNNING minutes).filter isBeepEvent).length = 3) ∧
    (∀ (s : MachState) (i : BtnInputs),
      s.systemState = SystemState.IDLE → s.doorOpenWarningActive = false →
      s.overloadWarningActive = false → i.startLevel = 0 → s.lastStartState = 1 →
      ¬(i.powerLevel = 0 ∧ s.lastPowerState = 1) →
      (handleButtons s i).1.systemState = SystemState.IDLE) := by
  constructor
  · intro minutes
    constructor
    · rw [runCycleCountdown, List.filterMap_append,
        countdownLoop_filterMap_disp SystemState.RUNNING (by simp)]
      simp [dispPat, updateDisplayPattern]
    · rw [runCycleCountdown, List.filter_append, countdownLoop_filter_beep]
      simp [isBeepEvent]
  · intro s i hIdle hd ho hLv hLast hNoPow
    by_cases hp : i.powerLevel = 1 <;>
      simp [handleButtons, powerButtonStep, startButtonStep, startPressAction,
        hNoPow, hp, hLv, hLast, hIdle, hd, ho]

/-- Witness for C8 at M = 30 minutes and a concrete successful start. -/
theorem countdown_steps_and_completion_witness :
    (runCycleCountdown SystemState.RUNNING 30).filterMap dispPat
      = ((List.range ((30 : ℤ).toNat / 10)).reverse.map
          (fun k => hexDis.getD ((k + 1) % 10) 0)) ++ [hexDis.getD 0 0] ∧
    (handleButtons {mainInit with systemState := SystemState.IDLE, lastStartState := 1}
      {idleButtons with startLevel := 0}).1.systemState = SystemState.IDLE :=
  ⟨(countdown_steps_and_completion.1 30).1,
   countdown_steps_and_completion.2 _ _ rfl rfl rfl rfl rfl (by simp [mainInit, idleButtons])⟩

/-! Reachability: RUNNING is never observed at the top of the loop. -/

lemma startPressAction_not_running (a b c : ℚ) (s : MachState)
    (h : s.systemState ≠ SystemState.RUNNING) :
    (startPressAction a b c s).1.systemState ≠ SystemState.RUNNING := by
  unfold startPressAction
  dsimp only
  split_ifs <;> simp_all

lemma startButtonStep_not_running (lv : ℕ) (a b c : ℚ) (s : MachState)
    (h : s.systemState ≠ SystemState.RUNNING) :
    (startButtonStep lv a b c s).1.systemState ≠ SystemState.RUNNING := by
  unfold startButtonStep
  dsimp only
  split_ifs <;>
    first
      | exact startPressAction_not_running _ _ _ _ h
      | exact h

lemma powerButtonStep_not_running (lv : ℕ) (s : MachState) :
    s.systemState ≠ SystemState.RUNNING →
    (powerButtonStep lv s).1.systemState ≠ SystemState.RUNNING := by
  intro h
  unfold powerButtonStep powerOn powerOff
  dsimp only
  split_ifs <;> simp_all

lemma handleButtons_not_running (s : MachState) (i : BtnInputs)
    (h : s.systemState ≠ SystemState.RUNNING) :
    (handleButtons s i).1.systemState ≠ SystemState.RUNNING :=
  startButtonStep_not_running _ _ _ _ _ (powerButtonStep_not_running _ _ h)

lemma countdownLoop_no_already (st : SystemState) (n : ℕ) :
    Event.logCycleAlreadyInProgress ∉ countdownLoop st n := by
  induction n with
  | zero => simp [countdownLoop]
  | succ i ih => simp [countdownLoop, ih]

lemma runCycleCountdown_no_already (st : SystemState) (m : ℤ) :
    Event.logCycleAlreadyInProgress ∉ runCycleCountdown st m := by
  unfold runCycleCountdown
  simp [countdownLoop_no_already]

lemma startPressAction_no_already (a b c : ℚ) (s : MachState)
    (h : s.systemState ≠ SystemState.RUNNING) :
    Event.logCycleAlreadyInProgress ∉ (startPressAction a b c s).2 := by
  unfold startPressAction
  dsimp only
  split_ifs <;> simp_all [runCycleCountdown_no_already]

lemma startButtonStep_no_already (lv : ℕ) (a b c : ℚ) (s : MachState)
    (h : s.systemState ≠ SystemState.RUNNING) :
    Event.logCycleAlreadyInProgress ∉ (startButtonStep lv a b c s).2 := by
  unfold startButtonStep
  dsimp only
  split_ifs <;>
    first
      | exact startPressAction_no_already _ _ _ _ h
      | simp

lemma powerButtonStep_no_already (lv : ℕ) (s : MachState) :
    Event.logCycleAlreadyInProgress ∉ (powerButtonStep lv s).2 := by
  unfold powerButtonStep powerOn powerOff
  dsimp only
  split_ifs <;> simp

lemma handleButtons_no_already (s : MachState) (i : BtnInputs)
    (h : s.systemState ≠ SystemState.RUNNING) :
    Event.logCycleAlreadyInProgress ∉ (handleButtons s i).2 := by
  unfold handleButtons
  dsimp only
  rw [List.mem_append]
  rintro (hmem | hmem)
  · exact powerButtonStep_no_already _ _ hmem
  · exact startButtonStep_no_already _ _ _ _ _ (powerButtonStep_not_running _ _ h) hmem

lemma reachable_not_running : ∀ s : MachState, Reachable s →
    s.systemState ≠ SystemState.RUNNING := by
  intro s h
  induction h with
  | init => simp [mainInit]
  | step s' i inp _ ih =>
      have hb := handleButtons_not_running s' i ih
      unfold mainStep
      dsimp only
      split
      · exact hb
      · rw [raps_systemState]
        exact hb

/-- C10: at every loop-top state (entry of handleButtons) reachable from the
initial OFF state, systemState is not RUNNING, so the start-button branch
that logs a cycle-already-in-progress warning never fires. -/
theorem running_unreachable_at_loop_top (s : MachState) (h : Reachable s) :
    s.systemState ≠ SystemState.RUNNING ∧
    ∀ i : BtnInputs, Event.logCycleAlreadyInProgress ∉ (handleButtons s i).2 :=
  ⟨reachable_not_running s h,
   fun i => handleButtons_no_already s i (reachable_not_running s h)⟩

/-- Witness for C10 at the initial state and a concrete input. -/
theorem running_unreachable_at_loop_top_witness :
    mainInit.systemState ≠ SystemState.RUNNING ∧
    Event.logCycleAlreadyInProgress ∉ (handleButtons mainInit idleButtons).2 :=
  ⟨(running_unreachable_at_loop_top mainInit Reachable.init).1,
   (running_unreachable_at_loop_top mainInit Reachable.init).2 idleButtons⟩

end WashingMachine
